import Mathlib

set_option maxRecDepth 8192

/-!
Verification development for the zbackup utility (src/zfs_tools/zbackup.py).

The Python module is embedded shallowly:

* pure helpers (`zprefixed`, `snapshots_property`, `property_has_value`,
  `property_int_value_or_none`, `format_backup_properties`, ...) become Lean
  functions of the same name;
* a resolved property set (a Python dict mapping a bare property name to a
  `(value, source)` pair) becomes an association list `Props`;
* the row-processing loop of `get_backup_properties` becomes a fold over the
  rows that the external `zfs get` call produces;
* the external-tool invocations made by `snapshot` and `replicate` become an
  explicit trace of `Event` values, and the `stderr` warning produced by
  `property_int_value_or_none` becomes an explicit list of warning strings;
* the decision logic of `backup_or_reap_snapshots` (lines 170-199 of the
  source) is factored into `backup_decision`, which returns the
  take-snapshot flag, the retention count, the replication gate and the list
  of replication destinations actually used, together with the warnings;
  `backup_or_reap_snapshots` then turns that decision into the event trace.

Python `int(...)` is modelled by `pyInt?` (optional surrounding whitespace,
optional sign, nonempty run of ASCII decimal digits).  Python `s.split(",")`
is modelled by `split_commas`, and `sorted` on strings by `sortStrings`
(insertion sort under code-point lexicographic order, which agrees with the
Python comparison on strings; since string equality is syntactic, any correct
sort produces the same output, so stability is irrelevant here).
-/

namespace ZBackup

/-- The module prefix for ZFS user properties (source line 16). -/
def ZBACKUP_MODULE : String := "com.github.tesujimath.zbackup"

/-- Length to skip when stripping the module prefix (source line 17). -/
def ZBACKUP_MODULE_SKIPLEN : Nat := ZBACKUP_MODULE.length + 1

/-- Property name for the replication destination (source line 20). -/
def REPLICA_PROPERTY : String := "replica"

/-- Property name for the replication trigger (source line 21). -/
def REPLICATE_PROPERTY : String := "replicate"

/-- Suffix of the per-tier snapshots property (source line 22). -/
def SNAPSHOTS_PROPERTY_SUFFIX : String := "-snapshots"

/-- Suffix of the per-tier snapshot-limit property (source line 23). -/
def SNAPSHOT_LIMIT_PROPERTY_SUFFIX : String := "-snapshot-limit"

/-- Kernel-reducible model of Python str.startswith used by the embedding. -/
def str_startsWith (s pre : String) : Bool :=
  pre.toList.isPrefixOf s.toList

/-- Return property with module prefix (source lines 31-33). -/
def zprefixed (prop : String) : String :=
  ZBACKUP_MODULE ++ ":" ++ prop

/-- Return whether property has the module prefix (source lines 36-38). -/
def is_zprefixed (maybe_prefixed_property : String) : Bool :=
  str_startsWith maybe_prefixed_property (ZBACKUP_MODULE ++ ":")

/-- Return property with prefix stripped (source lines 41-43). -/
def zunprefixed (prefixed_property : String) : String :=
  prefixed_property.drop ZBACKUP_MODULE_SKIPLEN

/-- Barename of the snapshots property for a given tier (source lines 46-48). -/
def snapshots_property (tier : String) : String :=
  tier ++ SNAPSHOTS_PROPERTY_SUFFIX

/-- Barename of the snapshot-limit property for a given tier (source lines 51-53). -/
def snapshot_limit_property (tier : String) : String :=
  tier ++ SNAPSHOT_LIMIT_PROPERTY_SUFFIX

/-- Relevant unprefixed properties for a given tier (source lines 56-63). -/
def zbackup_properties (tier : String) : List String :=
  [REPLICA_PROPERTY, REPLICATE_PROPERTY, snapshots_property tier,
   snapshot_limit_property tier]

/-- A resolved property set: bare property name mapped to (value, source).
This models the per-filesystem Python dict built by get_backup_properties. -/
abbrev Props := List (String × String × String)

/-- First-match lookup in a resolved property set (Python dict indexing). -/
def plookup : Props → String → Option (String × String)
  | [], _ => none
  | (k, v, s) :: rest, key => if k = key then some (v, s) else plookup rest key

/-- Dict assignment: replace the entry for the key, or append a new one. -/
def setKV : Props → String → String × String → Props
  | [], key, vs => [(key, vs.1, vs.2)]
  | (k, v, s) :: rest, key, vs =>
    if k = key then (key, vs.1, vs.2) :: rest else (k, v, s) :: setKV rest key vs

/-- Model of Python str.split on a comma: the groups of characters between
commas, in order, with empty groups preserved (so the empty string yields
one empty group, as in Python). -/
def splitOnComma : List Char → List (List Char)
  | [] => [[]]
  | c :: cs =>
    if c = ',' then [] :: splitOnComma cs
    else
      match splitOnComma cs with
      | [] => [[c]]
      | g :: gs => (c :: g) :: gs

/-- Model of the Python expression value.split(",") on strings. -/
def split_commas (s : String) : List String :=
  (splitOnComma s.toList).map List.asString

/-- Numeric value of a run of decimal digits. -/
def digitsToNat (cs : List Char) : Nat :=
  cs.foldl (fun a c => 10 * a + (c.toNat - 48)) 0

/-- Model of the Python builtin int() applied to a string: optional
surrounding whitespace, an optional sign, then a nonempty run of ASCII
decimal digits; every other string raises ValueError, modelled as none. -/
def pyInt? (s : String) : Option Int :=
  let cs := ((s.toList.dropWhile Char.isWhitespace).reverse.dropWhile
    Char.isWhitespace).reverse
  match cs with
  | [] => none
  | c :: rest =>
    let sd : Bool × List Char :=
      if c = '-' then (true, rest)
      else if c = '+' then (false, rest)
      else (false, c :: rest)
    if sd.2 ≠ [] ∧ sd.2.all Char.isDigit then
      (if sd.1 then some (-(digitsToNat sd.2 : Int)) else some (digitsToNat sd.2 : Int))
    else none

/-- Return whether the property has a (not none) value (source lines 146-152). -/
def property_has_value (properties : Props) (property_name : String) : Bool :=
  match plookup properties property_name with
  | some (value, _) => decide ¬(value = "none")
  | none => false

/-- Single-quote character, used to render the Python repr of a string. -/
def squote : String := String.singleton (Char.ofNat 39)

/-- Python str() of a pair of strings, as interpolated by the warning in
property_int_value_or_none (source line 165 formats the whole
(value, source) tuple). -/
def py_pair_repr (value source : String) : String :=
  "(" ++ squote ++ value ++ squote ++ ", " ++ squote ++ source ++ squote ++ ")"

/-- The stderr warning text of property_int_value_or_none (source lines 163-166). -/
def badly_formed_msg (property_name value source filesystem : String) : String :=
  "badly formed " ++ property_name ++ "=" ++ py_pair_repr value source ++
    " property for " ++ filesystem ++ " (should be integer)"

/-- Interpret the property value as an integer value, or None (source lines
155-167).  The first component is the Python return value (value, source);
the second component is the list of stderr warning lines emitted. -/
def property_int_value_or_none (filesystem : String) (properties : Props)
    (property_name : String) : (Option Int × Option String) × List String :=
  if property_has_value properties property_name then
    match plookup properties property_name with
    | some (value_s, source) =>
      match pyInt? value_s with
      | some v => ((some v, some source), [])
      | none => ((none, some source),
          [badly_formed_msg property_name value_s source filesystem])
    | none => ((none, none), [])
  else ((none, none), [])

/-- The options relevant to the embedded logic: the --delete-tiers option
(source lines 297-304, consumed at source line 126). -/
structure Options where
  delete_tiers : Option String
deriving DecidableEq

/-- External-tool invocations made by the module, as trace events.
snap records a call of snapshot (source lines 105-120) with its tier,
filesystem, take_snapshot flag and keep count; repl records the zreplicate
invocation made by replicate (source lines 130-143). -/
inductive Event where
  | snap (tier filesystem : String) (take : Bool) (keep : Int)
  | repl (filesystem destination : String)
deriving DecidableEq

/-- The snapshot prunes performed by replicate before replicating (source
lines 126-128): one snapshot call with no snapshot taken and keep 0 per
comma-separated delete tier. -/
def delete_tier_prunes (filesystem : String) (options : Options) : List Event :=
  match options.delete_tiers with
  | some dt => (split_commas dt).map (fun tier => Event.snap tier filesystem false 0)
  | none => []

/-- Replicate given filesystem, possibly after deleting snapshots from other
tiers (source lines 123-143), as the trace of external invocations it makes. -/
def replicate (filesystem destination : String) (options : Options) : List Event :=
  delete_tier_prunes filesystem options ++ [Event.repl filesystem destination]

/-- The decision computed by backup_or_reap_snapshots (source lines 170-199)
for one filesystem and tier: whether a snapshot is taken, the retention
count handed to zsnap, whether the replication gate passes, and the
destination argument of each replicate call actually made (source lines
198-199 loop over the comma-separated tokens of the replica value but pass
the whole value as the destination each time). -/
structure Decision where
  take_snapshot : Bool
  retain_count : Option Int
  replicate_gate : Bool
  replica_targets : List String
deriving DecidableEq

/-- The take_snapshot flag of backup_or_reap_snapshots (source lines
173-180): true exactly when the snapshots property parsed to an integer and
its source is the string local. -/
def take_snapshot_flag (tier filesystem : String) (properties : Props) : Bool :=
  let sres := property_int_value_or_none filesystem properties (snapshots_property tier)
  sres.1.1.isSome && decide (sres.1.2 = some "local")

/-- The retention count handed to zsnap by backup_or_reap_snapshots (source
lines 181-188): the parsed snapshot-limit value when present, otherwise the
parsed snapshots value. -/
def retention (tier filesystem : String) (properties : Props) : Option Int :=
  let lres := property_int_value_or_none filesystem properties
    (snapshot_limit_property tier)
  if lres.1.1.isSome then lres.1.1
  else (property_int_value_or_none filesystem properties (snapshots_property tier)).1.1

/-- The replication gate of backup_or_reap_snapshots (source lines 190-197):
the replicate property must have a value and be exactly the pair of the tier
name with source local, the replica property must have a value, and the
replica source must be local. -/
def replication_gate (tier : String) (properties : Props) : Bool :=
  property_has_value properties REPLICATE_PROPERTY
    && decide (plookup properties REPLICATE_PROPERTY = some (tier, "local"))
    && property_has_value properties REPLICA_PROPERTY
    && (match plookup properties REPLICA_PROPERTY with
        | some (_, replica_source) => decide (replica_source = "local")
        | none => false)

/-- The destination argument of each replicate call made by
backup_or_reap_snapshots (source lines 198-199): the loop iterates over the
comma-separated tokens of the replica value, but each call passes the whole
replica value as the destination. -/
def replication_targets (tier : String) (properties : Props) : List String :=
  if replication_gate tier properties then
    match plookup properties REPLICA_PROPERTY with
    | some (replica, _) => (split_commas replica).map (fun _tok => replica)
    | none => []
  else []

/-- The stderr warnings emitted by the two integer-property reads of
backup_or_reap_snapshots (source lines 176-178 and 182-184). -/
def decision_warnings (tier filesystem : String) (properties : Props) : List String :=
  (property_int_value_or_none filesystem properties (snapshots_property tier)).2
    ++ (property_int_value_or_none filesystem properties (snapshot_limit_property tier)).2

/-- The decision logic of backup_or_reap_snapshots (source lines 170-199),
factored out of the event-producing wrapper below; also returns the stderr
warnings produced while parsing the two integer properties. -/
def backup_decision (tier filesystem : String) (properties : Props) :
    Decision × List String :=
  (⟨take_snapshot_flag tier filesystem properties,
    retention tier filesystem properties,
    replication_gate tier properties,
    replication_targets tier properties⟩,
   decision_warnings tier filesystem properties)

/-- Backup and/or reap snapshots for the given filesystem (source lines
170-199), as the trace of external invocations plus the stderr warnings. -/
def backup_or_reap_snapshots (tier filesystem : String) (properties : Props)
    (options : Options) : List Event × List String :=
  let d := backup_decision tier filesystem properties
  ((match d.1.retain_count with
    | some keep => [Event.snap tier filesystem d.1.take_snapshot keep]
    | none => []) ++
    d.1.replica_targets.flatMap (fun dest => replicate filesystem dest options),
   d.2)

/-- One line of output of the external property query: filesystem name,
(possibly prefixed) property name, value, and raw source (provenance). -/
structure Row where
  name : String
  prop : String
  value : String
  source : String
deriving DecidableEq

/-- The per-filesystem map built by get_backup_properties. -/
abbrev PropsMap := List (String × Props)

/-- First-match lookup of a filesystem in the per-filesystem map. -/
def fslookup : PropsMap → String → Option Props
  | [], _ => none
  | (k, m) :: rest, key => if k = key then some m else fslookup rest key

/-- Update the entry of a filesystem in place (no effect when absent). -/
def fsupdate : PropsMap → String → (Props → Props) → PropsMap
  | [], _, _ => []
  | (k, m) :: rest, key, f =>
    if k = key then (k, f m) :: rest else (k, m) :: fsupdate rest key f

/-- Provenance normalization of the row loop (source lines 89-90): any
source beginning with inherited collapses to plain inherited. -/
def normalized_source (r : Row) : String :=
  if str_startsWith r.source "inherited" then "inherited" else r.source

/-- The body of the row loop of get_backup_properties (source lines 85-98):
prefix check, provenance normalization, the local-or-received filter, dict
creation for a new filesystem, and the unset-sentinel filter. -/
def process_row (properties : PropsMap) (r : Row) : PropsMap :=
  if is_zprefixed r.prop then
    let bare_property := zunprefixed r.prop
    if normalized_source r = "local" ∨ normalized_source r = "received" then
      let properties1 := if fslookup properties r.name = none then
          properties ++ [(r.name, [])] else properties
      if r.value ≠ "-" then
        fsupdate properties1 r.name
          (fun m => setKV m bare_property (r.value, normalized_source r))
      else properties1
    else properties
  else properties

/-- Return the backup properties of all filesystems (source lines 75-102),
given the rows produced by the external query.  The tier argument of the
source function only selects which properties the external query reports
(a specific tier restricts the query, tier None queries everything for the
all-tiers display view); the row processing embedded here is common to both
queries. -/
def get_backup_properties (rows : List Row) : PropsMap :=
  rows.foldl process_row []

/-- Code-point comparison of character lists, the order Python uses to sort
strings. -/
def lexLe : List Char → List Char → Bool
  | [], _ => true
  | _ :: _, [] => false
  | a :: as, b :: bs =>
    if a.toNat < b.toNat then true
    else if b.toNat < a.toNat then false
    else lexLe as bs

/-- Code-point comparison of strings (the Python string order). -/
def strLe (a b : String) : Bool := lexLe a.toList b.toList

/-- Insert a string into a sorted list of strings. -/
def insert_le (a : String) : List String → List String
  | [] => [a]
  | b :: bs => if strLe a b then a :: b :: bs else b :: insert_le a bs

/-- Model of Python sorted() on a list of strings. -/
def sortStrings : List String → List String
  | [] => []
  | a :: as => insert_le a (sortStrings as)

/-- The local_and_defaults dict computed by format_backup_properties (source
lines 206-225): the locally sourced properties, with each non-local snapshot
or snapshot-limit property of a tier providing a default for that tier
snapshot-limit entry when no such entry is present yet. -/
def effective_properties (properties : Props) : Props :=
  let local_and_defaults := properties.filter (fun kv => kv.2.2 == "local")
  let non_local := properties.filter (fun kv => !(kv.2.2 == "local"))
  non_local.foldl (fun acc kv =>
    let nm := kv.1
    let snapshot_tier : Option String :=
      if nm.endsWith SNAPSHOTS_PROPERTY_SUFFIX then
        some (nm.dropRight SNAPSHOTS_PROPERTY_SUFFIX.length)
      else if nm.endsWith SNAPSHOT_LIMIT_PROPERTY_SUFFIX then
        some (nm.dropRight SNAPSHOT_LIMIT_PROPERTY_SUFFIX.length)
      else none
    match snapshot_tier with
    | some t =>
      if plookup acc (snapshot_limit_property t) = none then
        setKV acc (snapshot_limit_property t) kv.2
      else acc
    | none => acc) local_and_defaults

/-- The ordered name list emitted by format_backup_properties (source lines
227-235): the sorted names other than replica and replicate, followed by the
sorted names among replica and replicate. -/
def format_names (properties : Props) : List String :=
  let ks := sortStrings ((effective_properties properties).map (fun kv => kv.1))
  ks.filter (fun nm => !(nm == REPLICA_PROPERTY) && !(nm == REPLICATE_PROPERTY))
    ++ ks.filter (fun nm => nm == REPLICA_PROPERTY || nm == REPLICATE_PROPERTY)

/-- Format the properties to show what will be done by zbackup (source lines
202-236). -/
def format_backup_properties (properties : Props) : String :=
  String.intercalate " " ((format_names properties).map (fun nm =>
    nm ++ "=" ++ (match plookup (effective_properties properties) nm with
                  | some vs => vs.1
                  | none => "")))

/-! Basic lemmas about the embedded definitions. -/

theorem pyInt?_ne_none_str {v : String} {n : Int} (h : pyInt? v = some n) :
    v ≠ "none" := by
  intro hv
  subst hv
  have hn : pyInt? "none" = none := by decide
  rw [hn] at h
  exact Option.noConfusion h

theorem piv_absent {filesystem : String} {properties : Props} {p : String}
    (h : plookup properties p = none) :
    property_int_value_or_none filesystem properties p = ((none, none), []) := by
  simp [property_int_value_or_none, property_has_value, h]

theorem piv_none_value {filesystem : String} {properties : Props} {p s : String}
    (h : plookup properties p = some ("none", s)) :
    property_int_value_or_none filesystem properties p = ((none, none), []) := by
  simp [property_int_value_or_none, property_has_value, h]

theorem piv_parsed {filesystem : String} {properties : Props} {p v s : String}
    {n : Int} (h : plookup properties p = some (v, s)) (hn : pyInt? v = some n) :
    property_int_value_or_none filesystem properties p = ((some n, some s), []) := by
  have hv : v ≠ "none" := pyInt?_ne_none_str hn
  simp [property_int_value_or_none, property_has_value, h, hv, hn]

theorem piv_malformed {filesystem : String} {properties : Props} {p v s : String}
    (h : plookup properties p = some (v, s)) (hv : v ≠ "none")
    (hp : pyInt? v = none) :
    property_int_value_or_none filesystem properties p =
      ((none, some s), [badly_formed_msg p v s filesystem]) := by
  simp [property_int_value_or_none, property_has_value, h, hv, hp]

theorem bd_take (t f : String) (P : Props) :
    (backup_decision t f P).1.take_snapshot = take_snapshot_flag t f P := rfl

theorem bd_retain (t f : String) (P : Props) :
    (backup_decision t f P).1.retain_count = retention t f P := rfl

theorem bd_gate (t f : String) (P : Props) :
    (backup_decision t f P).1.replicate_gate = replication_gate t P := rfl

theorem bd_targets (t f : String) (P : Props) :
    (backup_decision t f P).1.replica_targets = replication_targets t P := rfl

theorem bd_warnings (t f : String) (P : Props) :
    (backup_decision t f P).2 = decision_warnings t f P := rfl

theorem take_snapshot_flag_iff (tier filesystem : String) (properties : Props) :
    take_snapshot_flag tier filesystem properties = true ↔
      ∃ v s, plookup properties (snapshots_property tier) = some (v, s) ∧
        (pyInt? v).isSome = true ∧ s = "local" := by
  constructor
  · intro h
    simp only [take_snapshot_flag] at h
    rcases hP : plookup properties (snapshots_property tier) with _ | ⟨v, s⟩
    · rw [piv_absent hP] at h
      simp at h
    · by_cases hv : v = "none"
      · subst hv
        rw [piv_none_value hP] at h
        simp at h
      · rcases hp : pyInt? v with _ | n
        · rw [piv_malformed hP hv hp] at h
          simp at h
        · rw [piv_parsed hP hp] at h
          simp at h
          exact ⟨v, s, rfl, by simp [hp], h⟩
  · rintro ⟨v, s, hP, hsome, rfl⟩
    obtain ⟨n, hn⟩ := Option.isSome_iff_exists.mp hsome
    simp only [take_snapshot_flag]
    rw [piv_parsed hP hn]
    simp

/-- C1: for every tier and resolved property set, the decision takes a
snapshot if and only if the tier snapshots property is present with an
integer-parseable value and its provenance is exactly local; and when the
snapshots property is present with provenance received and the
snapshot-limit property is absent, the decision does not take a snapshot and
the retention count is the parsed snapshots value. -/
theorem zbackup_C1 (tier filesystem : String) (properties : Props) :
    ((backup_decision tier filesystem properties).1.take_snapshot = true ↔
      ∃ v s, plookup properties (snapshots_property tier) = some (v, s) ∧
        (pyInt? v).isSome = true ∧ s = "local")
    ∧ (∀ v n, plookup properties (snapshots_property tier) = some (v, "received") →
        pyInt? v = some n →
        plookup properties (snapshot_limit_property tier) = none →
        (backup_decision tier filesystem properties).1.take_snapshot = false ∧
        (backup_decision tier filesystem properties).1.retain_count = some n) := by
  constructor
  · rw [bd_take]
    exact take_snapshot_flag_iff tier filesystem properties
  · intro v n hs hn hl
    constructor
    · rw [bd_take]
      cases hflag : take_snapshot_flag tier filesystem properties
      · rfl
      · exfalso
        obtain ⟨v2, s2, hP2, _, hs2⟩ :=
          (take_snapshot_flag_iff tier filesystem properties).mp hflag
        rw [hs] at hP2
        obtain ⟨-, hsrc⟩ := Prod.mk.injEq .. ▸ Option.some.inj hP2
        subst hs2
        exact absurd hsrc.symm (by decide)
    · rw [bd_retain]
      simp only [retention]
      rw [piv_absent hl, piv_parsed hs hn]
      simp

/-- Witness for C1 at a concrete property set: a received snapshots count of
seven with no limit yields no snapshot and a retention of seven. -/
theorem zbackup_C1_witness :
    (backup_decision "daily" "tank" [("daily-snapshots", "7", "received")]).1.take_snapshot = false ∧
    (backup_decision "daily" "tank" [("daily-snapshots", "7", "received")]).1.retain_count = some 7 :=
  (zbackup_C1 "daily" "tank" [("daily-snapshots", "7", "received")]).2 "7" 7
    (by decide) (by decide) (by decide)

/-- C2: when both the tier snapshots property (provenance local) and the tier
snapshot-limit property are present with integer-parseable values, the
retention count is the parsed limit value, and differs from the snapshots
value whenever the two parsed values differ, regardless of the limit
provenance. -/
theorem zbackup_C2 (tier filesystem : String) (properties : Props)
    (v w ls : String) (n m : Int)
    (_hs : plookup properties (snapshots_property tier) = some (v, "local"))
    (_hn : pyInt? v = some n)
    (hl : plookup properties (snapshot_limit_property tier) = some (w, ls))
    (hm : pyInt? w = some m) :
    (backup_decision tier filesystem properties).1.retain_count = some m ∧
    (n ≠ m → (backup_decision tier filesystem properties).1.retain_count ≠ some n) := by
  have hr : (backup_decision tier filesystem properties).1.retain_count = some m := by
    rw [bd_retain]
    simp only [retention]
    rw [piv_parsed hl hm]
    simp
  refine ⟨hr, fun hne hc => hne ?_⟩
  rw [hr] at hc
  exact (Option.some.inj hc).symm

/-- Witness for C2 at a concrete property set: local snapshots seven and
received limit three retain three. -/
theorem zbackup_C2_witness :
    (backup_decision "daily" "tank"
      [("daily-snapshots", "7", "local"), ("daily-snapshot-limit", "3", "received")]).1.retain_count = some 3 ∧
    ((7 : Int) ≠ 3 →
      (backup_decision "daily" "tank"
        [("daily-snapshots", "7", "local"), ("daily-snapshot-limit", "3", "received")]).1.retain_count ≠ some 7) :=
  zbackup_C2 "daily" "tank"
    [("daily-snapshots", "7", "local"), ("daily-snapshot-limit", "3", "received")]
    "7" "3" "received" 7 3 (by decide) (by decide) (by decide) (by decide)

theorem replication_gate_iff (tier : String) (properties : Props) :
    replication_gate tier properties = true ↔
      (tier ≠ "none" ∧
       plookup properties REPLICATE_PROPERTY = some (tier, "local") ∧
       ∃ rv, rv ≠ "none" ∧
         plookup properties REPLICA_PROPERTY = some (rv, "local")) := by
  rcases hR : plookup properties REPLICATE_PROPERTY with _ | ⟨v, s⟩
  · simp [replication_gate, property_has_value, hR]
  · rcases hA : plookup properties REPLICA_PROPERTY with _ | ⟨rv, rs⟩
    · simp [replication_gate, property_has_value, hR, hA]
    · simp only [replication_gate, property_has_value, hR, hA, Bool.and_eq_true,
        decide_eq_true_eq, Option.some.injEq, Prod.mk.injEq]
      constructor
      · rintro ⟨⟨⟨hv, rfl, rfl⟩, hrv⟩, hrs⟩
        exact ⟨hv, ⟨rfl, rfl⟩, rv, hrv, rfl, hrs⟩
      · rintro ⟨htier, ⟨rfl, rfl⟩, rv2, hrv2, rfl, hrs⟩
        exact ⟨⟨⟨htier, rfl, rfl⟩, hrv2⟩, hrs⟩

theorem replication_targets_of_gate_false {tier : String} {properties : Props}
    (h : replication_gate tier properties = false) :
    replication_targets tier properties = [] := by
  simp [replication_targets, h]

/-- C3: evaluation of the decision at the failing input for the multi-target
replication loop.  With a local replicate matching the tier and a local
replica value of two comma-separated tokens, the code makes two replicate
invocations, each with the whole joined value as the destination, not one
per individual token. -/
theorem zbackup_C3_eval :
    (backup_decision "daily" "tank/data"
      [("replicate", "daily", "local"), ("replica", "alpha,beta", "local")]).1.replica_targets
      = ["alpha,beta", "alpha,beta"] ∧
    (backup_decision "daily" "tank/data"
      [("replicate", "daily", "local"), ("replica", "alpha,beta", "local")]).1.replica_targets
      ≠ ["alpha", "beta"] := by decide

/-- C4 counterexample: a property set where the replicate property is
present with a value and provenance local, and the replica property is
present with a value and provenance local, yet no replication is attempted,
because the replicate value (weekly) differs from the tier (daily). -/
theorem zbackup_C4_counterexample :
    property_has_value
      [("replicate", "weekly", "local"), ("replica", "dest", "local")]
      REPLICATE_PROPERTY = true ∧
    plookup [("replicate", "weekly", "local"), ("replica", "dest", "local")]
      REPLICATE_PROPERTY = some ("weekly", "local") ∧
    property_has_value
      [("replicate", "weekly", "local"), ("replica", "dest", "local")]
      REPLICA_PROPERTY = true ∧
    plookup [("replicate", "weekly", "local"), ("replica", "dest", "local")]
      REPLICA_PROPERTY = some ("dest", "local") ∧
    (backup_decision "daily" "tank"
      [("replicate", "weekly", "local"), ("replica", "dest", "local")]).1.replicate_gate = false ∧
    (backup_decision "daily" "tank"
      [("replicate", "weekly", "local"), ("replica", "dest", "local")]).1.replica_targets = [] := by
  decide

/-- C4 (amended): replication is attempted if and only if the replicate
property is present with provenance local and a value equal to the tier name
(and that value is not the none sentinel), and the replica property is
present with a value and provenance local; a replicate property with
provenance received never triggers replication, and when the gate fails no
replication destination is used. -/
theorem zbackup_C4_amended (tier filesystem : String) (properties : Props) :
    ((backup_decision tier filesystem properties).1.replicate_gate = true ↔
      (tier ≠ "none" ∧
       plookup properties REPLICATE_PROPERTY = some (tier, "local") ∧
       ∃ rv, rv ≠ "none" ∧
         plookup properties REPLICA_PROPERTY = some (rv, "local")))
    ∧ (∀ v, plookup properties REPLICATE_PROPERTY = some (v, "received") →
        (backup_decision tier filesystem properties).1.replicate_gate = false)
    ∧ ((backup_decision tier filesystem properties).1.replicate_gate = false →
        (backup_decision tier filesystem properties).1.replica_targets = []) := by
  refine ⟨by rw [bd_gate]; exact replication_gate_iff tier properties, ?_, ?_⟩
  · intro v h
    cases hg : replication_gate tier properties
    · rw [bd_gate]
      exact hg
    · exfalso
      obtain ⟨-, hR, -⟩ := (replication_gate_iff tier properties).mp hg
      rw [h] at hR
      obtain ⟨-, hsrc⟩ := Prod.mk.injEq .. ▸ Option.some.inj hR
      exact absurd hsrc (by decide)
  · intro h
    rw [bd_gate] at h
    rw [bd_targets]
    exact replication_targets_of_gate_false h

/-- Witness for C4 (amended) at a concrete property set: local replicate
equal to the tier plus local replica passes the gate. -/
theorem zbackup_C4_witness :
    (backup_decision "daily" "tank"
      [("replicate", "daily", "local"), ("replica", "host/pool", "local")]).1.replicate_gate = true :=
  (zbackup_C4_amended "daily" "tank"
    [("replicate", "daily", "local"), ("replica", "host/pool", "local")]).1.mpr
    ⟨by decide, by decide, "host/pool", by decide, by decide⟩

/-- C10: a stored value equal to the literal string none is treated as no
value at all: the has-value test fails, the integer read returns no value
and no source with no warning, and a none-valued replicate or replica
property makes the replication gate fail with no destinations. -/
theorem zbackup_C10 (filesystem tier p s : String) (properties : Props) :
    (plookup properties p = some ("none", s) →
      property_has_value properties p = false ∧
      property_int_value_or_none filesystem properties p = ((none, none), [])) ∧
    (plookup properties REPLICATE_PROPERTY = some ("none", s) →
      (backup_decision tier filesystem properties).1.replicate_gate = false ∧
      (backup_decision tier filesystem properties).1.replica_targets = []) ∧
    (plookup properties REPLICA_PROPERTY = some ("none", s) →
      (backup_decision tier filesystem properties).1.replicate_gate = false ∧
      (backup_decision tier filesystem properties).1.replica_targets = []) := by
  refine ⟨fun h => ⟨by simp [property_has_value, h], piv_none_value h⟩, ?_, ?_⟩
  · intro h
    have hg : replication_gate tier properties = false := by
      simp [replication_gate, property_has_value, h]
    exact ⟨by rw [bd_gate]; exact hg,
      by rw [bd_targets]; exact replication_targets_of_gate_false hg⟩
  · intro h
    have hg : replication_gate tier properties = false := by
      simp [replication_gate, property_has_value, h]
    exact ⟨by rw [bd_gate]; exact hg,
      by rw [bd_targets]; exact replication_targets_of_gate_false hg⟩

/-- Witness for C10 at a concrete property set with a none-valued snapshots
property. -/
theorem zbackup_C10_witness :
    property_has_value [("daily-snapshots", "none", "received")] "daily-snapshots" = false ∧
    property_int_value_or_none "tank" [("daily-snapshots", "none", "received")]
      "daily-snapshots" = ((none, none), []) :=
  (zbackup_C10 "tank" "daily" "daily-snapshots" "received"
    [("daily-snapshots", "none", "received")]).1 (by decide)

theorem badly_formed_msg_has_fs (pn v s fs : String) :
    ∃ a b, badly_formed_msg pn v s fs = a ++ fs ++ b :=
  ⟨"badly formed " ++ pn ++ "=" ++ py_pair_repr v s ++ " property for ",
   " (should be integer)", rfl⟩

theorem badly_formed_msg_has_pn (pn v s fs : String) :
    ∃ a b, badly_formed_msg pn v s fs = a ++ pn ++ b :=
  ⟨"badly formed ",
   "=" ++ py_pair_repr v s ++ " property for " ++ fs ++ " (should be integer)",
   by simp only [badly_formed_msg, String.append_assoc]⟩

theorem badly_formed_msg_snapshots_has_tier (tier v s fs : String) :
    ∃ a b, badly_formed_msg (snapshots_property tier) v s fs = a ++ tier ++ b :=
  ⟨"badly formed ",
   SNAPSHOTS_PROPERTY_SUFFIX ++ "=" ++ py_pair_repr v s ++ " property for " ++ fs
     ++ " (should be integer)",
   by simp only [badly_formed_msg, snapshots_property, String.append_assoc]⟩

theorem badly_formed_msg_limit_has_tier (tier v s fs : String) :
    ∃ a b, badly_formed_msg (snapshot_limit_property tier) v s fs = a ++ tier ++ b :=
  ⟨"badly formed ",
   SNAPSHOT_LIMIT_PROPERTY_SUFFIX ++ "=" ++ py_pair_repr v s ++ " property for " ++ fs
     ++ " (should be integer)",
   by simp only [badly_formed_msg, snapshot_limit_property, String.append_assoc]⟩

/-- C7: a snapshots or snapshot-limit value that does not parse as an
integer never aborts the decision (the embedded functions are total): the
parsed value is none, a warning whose text contains the filesystem, the
property name and the tier is emitted among the decision warnings, the flag
stays false, and when the other count is also absent the retention count is
none. -/
theorem zbackup_C7 (filesystem tier : String) (properties : Props) :
    (∀ v s, plookup properties (snapshots_property tier) = some (v, s) →
      v ≠ "none" → pyInt? v = none →
      (property_int_value_or_none filesystem properties (snapshots_property tier)).1.1 = none ∧
      (backup_decision tier filesystem properties).1.take_snapshot = false ∧
      (∃ m, m ∈ (backup_decision tier filesystem properties).2 ∧
        (∃ a b, m = a ++ filesystem ++ b) ∧
        (∃ a b, m = a ++ snapshots_property tier ++ b) ∧
        (∃ a b, m = a ++ tier ++ b)) ∧
      (plookup properties (snapshot_limit_property tier) = none →
        (backup_decision tier filesystem properties).1.retain_count = none))
    ∧ (∀ v s, plookup properties (snapshot_limit_property tier) = some (v, s) →
      v ≠ "none" → pyInt? v = none →
      (property_int_value_or_none filesystem properties (snapshot_limit_property tier)).1.1 = none ∧
      (backup_decision tier filesystem properties).1.retain_count =
        (property_int_value_or_none filesystem properties (snapshots_property tier)).1.1 ∧
      (∃ m, m ∈ (backup_decision tier filesystem properties).2 ∧
        (∃ a b, m = a ++ filesystem ++ b) ∧
        (∃ a b, m = a ++ snapshot_limit_property tier ++ b) ∧
        (∃ a b, m = a ++ tier ++ b))) := by
  constructor
  · intro v s h hv hp
    refine ⟨by rw [piv_malformed h hv hp], ?_, ?_, ?_⟩
    · rw [bd_take]
      simp only [take_snapshot_flag]
      rw [piv_malformed h hv hp]
      simp
    · refine ⟨badly_formed_msg (snapshots_property tier) v s filesystem, ?_,
        badly_formed_msg_has_fs _ v s _, badly_formed_msg_has_pn _ v s _,
        badly_formed_msg_snapshots_has_tier tier v s filesystem⟩
      rw [bd_warnings]
      simp only [decision_warnings]
      rw [piv_malformed h hv hp]
      simp
    · intro hl
      rw [bd_retain]
      simp only [retention]
      rw [piv_absent hl, piv_malformed h hv hp]
      simp
  · intro v s h hv hp
    refine ⟨by rw [piv_malformed h hv hp], ?_, ?_⟩
    · rw [bd_retain]
      simp only [retention]
      rw [piv_malformed h hv hp]
      simp
    · refine ⟨badly_formed_msg (snapshot_limit_property tier) v s filesystem, ?_,
        badly_formed_msg_has_fs _ v s _, badly_formed_msg_has_pn _ v s _,
        badly_formed_msg_limit_has_tier tier v s filesystem⟩
      rw [bd_warnings]
      simp only [decision_warnings]
      rw [piv_malformed h hv hp]
      simp

/-- Witness for C7 at the Scenario D input: a malformed daily snapshots
value of seven spelled out. -/
theorem zbackup_C7_witness :
    (property_int_value_or_none "tank" [("daily-snapshots", "seven", "local")]
      (snapshots_property "daily")).1.1 = none ∧
    (backup_decision "daily" "tank" [("daily-snapshots", "seven", "local")]).1.take_snapshot = false ∧
    (∃ m, m ∈ (backup_decision "daily" "tank" [("daily-snapshots", "seven", "local")]).2 ∧
      (∃ a b, m = a ++ "tank" ++ b) ∧
      (∃ a b, m = a ++ snapshots_property "daily" ++ b) ∧
      (∃ a b, m = a ++ "daily" ++ b)) ∧
    (plookup [("daily-snapshots", "seven", "local")] (snapshot_limit_property "daily") = none →
      (backup_decision "daily" "tank" [("daily-snapshots", "seven", "local")]).1.retain_count = none) :=
  (zbackup_C7 "tank" "daily" [("daily-snapshots", "seven", "local")]).1 "seven" "local"
    (by decide) (by decide) (by decide)

/-- C9: in the invocation trace of replicate under a non-empty delete-tiers
option, every snapshot event is a prune of a named delete tier, invoked with
take_snapshot false and retention 0, and its position strictly precedes the
position of every replication event; the replication event is the last
element of the trace. -/
theorem zbackup_C9 (filesystem destination dt : String) (options : Options)
    (hdt : options.delete_tiers = some dt) :
    (∀ (i : Nat) (t f : String) (b : Bool) (k : Int),
        (replicate filesystem destination options)[i]? = some (Event.snap t f b k) →
        b = false ∧ k = 0 ∧ t ∈ split_commas dt ∧ f = filesystem ∧
        (∀ (j : Nat) (f2 d2 : String),
          (replicate filesystem destination options)[j]? = some (Event.repl f2 d2) →
          i < j))
    ∧ (replicate filesystem destination options).getLast? =
        some (Event.repl filesystem destination) := by
  have htr : replicate filesystem destination options =
      (split_commas dt).map (fun tier => Event.snap tier filesystem false 0) ++
        [Event.repl filesystem destination] := by
    simp [replicate, delete_tier_prunes, hdt]
  refine ⟨?_, by rw [htr]; exact List.getLast?_concat _⟩
  intro i t f b k hget
  rw [htr] at hget
  by_cases hil : i < (split_commas dt).length
  · rw [List.getElem?_append_left (by simpa using hil), List.getElem?_map] at hget
    rcases hLi : (split_commas dt)[i]? with _ | ti
    · rw [hLi] at hget
      exact Option.noConfusion hget
    · rw [hLi, Option.map_some'] at hget
      have hfields := Option.some.inj hget
      rw [Event.snap.injEq] at hfields
      obtain ⟨hti, hf, hb, hk⟩ := hfields
      obtain ⟨hlt, hel⟩ := List.getElem?_eq_some_iff.mp hLi
      refine ⟨hb.symm, hk.symm, ?_, hf.symm, ?_⟩
      · rw [← hti, ← hel]
        exact List.getElem_mem hlt
      · intro j f2 d2 hj
        rw [htr] at hj
        by_cases hjl : j < (split_commas dt).length
        · exfalso
          rw [List.getElem?_append_left (by simpa using hjl),
            List.getElem?_map] at hj
          rcases hLj : (split_commas dt)[j]? with _ | tj
          · rw [hLj] at hj
            exact Option.noConfusion hj
          · rw [hLj, Option.map_some'] at hj
            exact Event.noConfusion (Option.some.inj hj)
        · omega
  · exfalso
    rw [List.getElem?_append_right (by simpa using Nat.le_of_not_lt hil)] at hget
    rcases hd : i - ((split_commas dt).map
        (fun tier => Event.snap tier filesystem false 0)).length with _ | d
    · rw [hd] at hget
      exact Event.noConfusion (Option.some.inj hget)
    · rw [hd] at hget
      have : ([Event.repl filesystem destination] : List Event)[d + 1]? = none :=
        List.getElem?_len_le (by simp)
      rw [this] at hget
      exact Option.noConfusion hget

/-- Witness for C9: with one delete tier the trace ends in the replication
event. -/
theorem zbackup_C9_witness :
    (replicate "tank" "host/pool" ⟨some "hourly"⟩).getLast? =
      some (Event.repl "tank" "host/pool") :=
  (zbackup_C9 "tank" "host/pool" "hourly" ⟨some "hourly"⟩ rfl).2

theorem plookup_setKV_cases {m : Props} {k q v s v0 s0 : String}
    (h : plookup (setKV m k (v0, s0)) q = some (v, s)) :
    (v = v0 ∧ s = s0) ∨ plookup m q = some (v, s) := by
  induction m with
  | nil =>
    simp only [setKV, plookup] at h
    by_cases hk : k = q
    · rw [if_pos hk] at h
      obtain ⟨hv, hs⟩ := Prod.ext_iff.mp (Option.some.inj h)
      exact Or.inl ⟨hv.symm, hs.symm⟩
    · rw [if_neg hk] at h
      exact Option.noConfusion h
  | cons kv rest ih =>
    obtain ⟨k1, v1, s1⟩ := kv
    by_cases h1 : k1 = k
    · subst h1
      rw [show setKV ((k1, v1, s1) :: rest) k1 (v0, s0) = (k1, v0, s0) :: rest by
        simp [setKV]] at h
      rw [plookup] at h
      by_cases h2 : k1 = q
      · rw [if_pos h2] at h
        obtain ⟨hv, hs⟩ := Prod.ext_iff.mp (Option.some.inj h)
        exact Or.inl ⟨hv.symm, hs.symm⟩
      · rw [if_neg h2] at h
        right
        rw [plookup, if_neg h2]
        exact h
    · rw [show setKV ((k1, v1, s1) :: rest) k (v0, s0) =
          (k1, v1, s1) :: setKV rest k (v0, s0) by simp [setKV, h1]] at h
      rw [plookup] at h
      by_cases h2 : k1 = q
      · rw [if_pos h2] at h
        right
        rw [plookup, if_pos h2]
        exact h
      · rw [if_neg h2] at h
        rcases ih h with hl | hr
        · exact Or.inl hl
        · right
          rw [plookup, if_neg h2]
          exact hr

theorem fslookup_append_empty {M : PropsMap} {nm fs : String} {props : Props}
    (h : fslookup (M ++ [(nm, [])]) fs = some props) :
    fslookup M fs = some props ∨ props = [] := by
  induction M with
  | nil =>
    simp only [List.nil_append, fslookup] at h
    by_cases hk : nm = fs
    · rw [if_pos hk] at h
      exact Or.inr (Option.some.inj h).symm
    · rw [if_neg hk] at h
      exact Option.noConfusion h
  | cons kv rest ih =>
    obtain ⟨k1, m1⟩ := kv
    rw [List.cons_append, fslookup] at h
    by_cases h2 : k1 = fs
    · rw [if_pos h2] at h
      left
      rw [fslookup, if_pos h2]
      exact h
    · rw [if_neg h2] at h
      rcases ih h with hl | hr
      · left
        rw [fslookup, if_neg h2]
        exact hl
      · exact Or.inr hr

theorem fslookup_fsupdate_cases {M : PropsMap} {key fs : String}
    {f : Props → Props} {props : Props}
    (h : fslookup (fsupdate M key f) fs = some props) :
    fslookup M fs = some props ∨
      ∃ p0, fslookup M fs = some p0 ∧ props = f p0 := by
  induction M with
  | nil =>
    simp only [fsupdate, fslookup] at h
    exact Option.noConfusion h
  | cons kv rest ih =>
    obtain ⟨k1, m1⟩ := kv
    by_cases h1 : k1 = key
    · rw [show fsupdate ((k1, m1) :: rest) key f = (k1, f m1) :: rest by
        simp [fsupdate, h1]] at h
      rw [fslookup] at h
      by_cases h2 : k1 = fs
      · rw [if_pos h2] at h
        right
        exact ⟨m1, by rw [fslookup, if_pos h2], (Option.some.inj h).symm⟩
      · rw [if_neg h2] at h
        left
        rw [fslookup, if_neg h2]
        exact h
    · rw [show fsupdate ((k1, m1) :: rest) key f = (k1, m1) :: fsupdate rest key f by
        simp [fsupdate, h1]] at h
      rw [fslookup] at h
      by_cases h2 : k1 = fs
      · rw [if_pos h2] at h
        left
        rw [fslookup, if_pos h2]
        exact h
      · rw [if_neg h2] at h
        rcases ih h with hl | ⟨p0, hp0, hf⟩
        · left
          rw [fslookup, if_neg h2]
          exact hl
        · right
          exact ⟨p0, by rw [fslookup, if_neg h2]; exact hp0, hf⟩

/-- The invariant every map produced by the reader satisfies: each recorded
value differs from the unset sentinel, and each recorded provenance is local
or received. -/
def reader_inv (m : PropsMap) : Prop :=
  ∀ fs props, fslookup m fs = some props →
    ∀ p v s, plookup props p = some (v, s) →
      v ≠ "-" ∧ (s = "local" ∨ s = "received")

theorem reader_inv_nil : reader_inv [] := by
  intro fs props h
  simp [fslookup] at h

theorem reader_inv_append_empty {m : PropsMap} {nm : String}
    (hm : reader_inv m) : reader_inv (m ++ [(nm, [])]) := by
  intro fs props hf p v s hp
  rcases fslookup_append_empty hf with h1 | rfl
  · exact hm fs props h1 p v s hp
  · simp [plookup] at hp

theorem process_row_inv {m : PropsMap} {r : Row} (hm : reader_inv m) :
    reader_inv (process_row m r) := by
  simp only [process_row]
  split
  · split
    · rename_i hsrc
      have hm1 : reader_inv (if fslookup m r.name = none then
          m ++ [(r.name, [])] else m) := by
        split
        · exact reader_inv_append_empty hm
        · exact hm
      split
      · rename_i hval
        intro fs props hf p v s hp
        rcases fslookup_fsupdate_cases hf with h1 | ⟨p0, hp0, rfl⟩
        · exact hm1 fs props h1 p v s hp
        · rcases plookup_setKV_cases hp with ⟨rfl, rfl⟩ | h2
          · exact ⟨hval, hsrc⟩
          · exact hm1 fs p0 hp0 p v s h2
      · exact hm1
    · exact hm
  · exact hm

theorem get_backup_properties_inv (rows : List Row) :
    reader_inv (get_backup_properties rows) := by
  rw [get_backup_properties]
  have h : ∀ m, reader_inv m → reader_inv (rows.foldl process_row m) := by
    induction rows with
    | nil => exact fun m hm => hm
    | cons r rest ih =>
      intro m hm
      exact ih (process_row m r) (process_row_inv hm)
  exact h [] reader_inv_nil

/-- C6: in every per-filesystem property set produced by the reader, no
recorded value equals the unset sentinel. -/
theorem zbackup_C6 (rows : List Row) (fs p v s : String) (props : Props)
    (hf : fslookup (get_backup_properties rows) fs = some props)
    (hp : plookup props p = some (v, s)) : v ≠ "-" :=
  (get_backup_properties_inv rows fs props hf p v s hp).1

/-- Witness for C6 at a one-row store output. -/
theorem zbackup_C6_witness : ("7" : String) ≠ "-" :=
  zbackup_C6 [⟨"tank", zprefixed "daily-snapshots", "7", "local"⟩] "tank"
    "daily-snapshots" "7" "local" [("daily-snapshots", "7", "local")]
    (by decide) (by decide)

/-- C5 counterexample: a store row with inherited provenance (normalized
from an inherited-from variant) is dropped even by the all-tiers query used
for the display view: the reader output is empty, so the inherited property
is not retained for the Formatter. -/
theorem zbackup_C5_counterexample :
    get_backup_properties
      [⟨"tank/fs", zprefixed "daily-snapshots", "7", "inherited from tank"⟩] = [] := by
  decide

/-- C5 (amended): the reader keeps only entries with provenance local or
received in every view it produces, including the all-tiers view serving the
display formatter; entries whose provenance normalizes to inherited are
dropped and never reach the formatter. -/
theorem zbackup_C5_amended (rows : List Row) (fs p v s : String) (props : Props)
    (hf : fslookup (get_backup_properties rows) fs = some props)
    (hp : plookup props p = some (v, s)) : s = "local" ∨ s = "received" :=
  (get_backup_properties_inv rows fs props hf p v s hp).2

/-- Witness for C5 (amended) at a one-row store output with received
provenance. -/
theorem zbackup_C5_witness :
    ("received" : String) = "local" ∨ ("received" : String) = "received" :=
  zbackup_C5_amended [⟨"tank", zprefixed "daily-snapshots", "5", "received"⟩]
    "tank" "daily-snapshots" "5" "received" [("daily-snapshots", "5", "received")]
    (by decide) (by decide)

theorem lexLe_total : ∀ as bs : List Char, lexLe as bs = true ∨ lexLe bs as = true := by
  intro as
  induction as with
  | nil => intro bs; exact Or.inl rfl
  | cons a as ih =>
    intro bs
    cases bs with
    | nil => exact Or.inr rfl
    | cons b bs =>
      simp only [lexLe]
      by_cases h1 : a.toNat < b.toNat
      · left
        rw [if_pos h1]
      · by_cases h2 : b.toNat < a.toNat
        · right
          rw [if_pos h2]
        · rw [if_neg h1, if_neg h2, if_neg h2, if_neg h1]
          exact ih bs

theorem lexLe_trans : ∀ as bs cs : List Char, lexLe as bs = true →
    lexLe bs cs = true → lexLe as cs = true := by
  intro as
  induction as with
  | nil => intro bs cs h1 h2; rfl
  | cons a as ih =>
    intro bs cs h1 h2
    cases bs with
    | nil => exact absurd h1 (by simp [lexLe])
    | cons b bs =>
      cases cs with
      | nil => exact absurd h2 (by simp [lexLe])
      | cons c cs =>
        simp only [lexLe] at h1 h2 ⊢
        by_cases hab : a.toNat < b.toNat <;> by_cases hbc : b.toNat < c.toNat
        · rw [if_pos (by omega : a.toNat < c.toNat)]
        · rw [if_neg hbc] at h2
          by_cases hcb : c.toNat < b.toNat
          · rw [if_pos hcb] at h2
            exact absurd h2 (by simp)
          · rw [if_pos (by omega : a.toNat < c.toNat)]
        · rw [if_neg hab] at h1
          by_cases hba : b.toNat < a.toNat
          · rw [if_pos hba] at h1
            exact absurd h1 (by simp)
          · rw [if_pos (by omega : a.toNat < c.toNat)]
        · rw [if_neg hab] at h1
          rw [if_neg hbc] at h2
          by_cases hba : b.toNat < a.toNat
          · rw [if_pos hba] at h1
            exact absurd h1 (by simp)
          · by_cases hcb : c.toNat < b.toNat
            · rw [if_pos hcb] at h2
              exact absurd h2 (by simp)
            · rw [if_neg hba] at h1
              rw [if_neg hcb] at h2
              rw [if_neg (by omega : ¬a.toNat < c.toNat),
                if_neg (by omega : ¬c.toNat < a.toNat)]
              exact ih bs cs h1 h2

theorem strLe_total (a b : String) : strLe a b = true ∨ strLe b a = true :=
  lexLe_total _ _

theorem strLe_trans {a b c : String} (h1 : strLe a b = true)
    (h2 : strLe b c = true) : strLe a c = true :=
  lexLe_trans _ _ _ h1 h2

theorem mem_insert_le {c a : String} : ∀ {l : List String},
    c ∈ insert_le a l ↔ c = a ∨ c ∈ l := by
  intro l
  induction l with
  | nil => simp [insert_le]
  | cons b bs ih =>
    simp only [insert_le]
    split
    · simp
    · simp only [List.mem_cons, ih]
      tauto

theorem pairwise_insert_le {a : String} : ∀ {l : List String},
    l.Pairwise (fun x y => strLe x y = true) →
    (insert_le a l).Pairwise (fun x y => strLe x y = true) := by
  intro l
  induction l with
  | nil => intro _; simp [insert_le]
  | cons b bs ih =>
    intro h
    rw [List.pairwise_cons] at h
    obtain ⟨hb, hbs⟩ := h
    simp only [insert_le]
    split
    · rename_i hab
      rw [List.pairwise_cons]
      refine ⟨?_, ?_⟩
      · intro x hx
        rcases List.mem_cons.mp hx with rfl | hxbs
        · exact hab
        · exact strLe_trans hab (hb x hxbs)
      · rw [List.pairwise_cons]
        exact ⟨hb, hbs⟩
    · rename_i hab
      rw [List.pairwise_cons]
      refine ⟨?_, ih hbs⟩
      intro x hx
      rcases mem_insert_le.mp hx with rfl | hxbs
      · rcases strLe_total x b with h | h
        · exact absurd h hab
        · exact h
      · exact hb x hxbs

theorem sortStrings_pairwise : ∀ l : List String,
    (sortStrings l).Pairwise (fun x y => strLe x y = true) := by
  intro l
  induction l with
  | nil => simp [sortStrings]
  | cons a as ih =>
    simp only [sortStrings]
    exact pairwise_insert_le ih

theorem mem_sortStrings {c : String} : ∀ {l : List String},
    c ∈ sortStrings l ↔ c ∈ l := by
  intro l
  induction l with
  | nil => simp [sortStrings]
  | cons a as ih => simp only [sortStrings, mem_insert_le, ih, List.mem_cons]

theorem plookup_isSome_iff {m : Props} {nm : String} :
    (plookup m nm).isSome = true ↔ nm ∈ m.map (fun kv => kv.1) := by
  induction m with
  | nil => simp [plookup]
  | cons kv rest ih =>
    obtain ⟨k, v, s⟩ := kv
    simp only [plookup, List.map_cons, List.mem_cons]
    by_cases hk : k = nm
    · subst hk
      simp
    · rw [if_neg hk]
      simp only [ih]
      constructor
      · exact fun h => Or.inr h
      · rintro (rfl | h)
        · exact absurd rfl hk
        · exact h

/-- C8: the token name sequence emitted by the formatter splits into a first
segment of lexically sorted names none of which is replica or replicate,
followed by a segment containing exactly the replica and replicate names
present in the effective property set. -/
theorem zbackup_C8 (properties : Props) :
    ∃ l₁ l₂, format_names properties = l₁ ++ l₂ ∧
      l₁.Pairwise (fun x y => strLe x y = true) ∧
      l₂.Pairwise (fun x y => strLe x y = true) ∧
      (∀ nm ∈ l₁, nm ≠ REPLICA_PROPERTY ∧ nm ≠ REPLICATE_PROPERTY) ∧
      (∀ nm, nm ∈ l₂ ↔ ((nm = REPLICA_PROPERTY ∨ nm = REPLICATE_PROPERTY) ∧
        (plookup (effective_properties properties) nm).isSome = true)) := by
  refine ⟨(sortStrings ((effective_properties properties).map
        (fun kv : String × String × String => kv.1))).filter
      (fun nm => !(nm == REPLICA_PROPERTY) && !(nm == REPLICATE_PROPERTY)),
    (sortStrings ((effective_properties properties).map
        (fun kv : String × String × String => kv.1))).filter
      (fun nm => nm == REPLICA_PROPERTY || nm == REPLICATE_PROPERTY),
    rfl, ?_, ?_, ?_, ?_⟩
  · exact List.Pairwise.filter _ (sortStrings_pairwise _)
  · exact List.Pairwise.filter _ (sortStrings_pairwise _)
  · intro nm hnm
    rw [List.mem_filter] at hnm
    obtain ⟨-, hpred⟩ := hnm
    simp only [Bool.and_eq_true, Bool.not_eq_true', beq_eq_false_iff_ne] at hpred
    exact hpred
  · intro nm
    rw [List.mem_filter, mem_sortStrings, ← plookup_isSome_iff]
    simp only [Bool.or_eq_true, beq_iff_eq]
    tauto

/-- Witness for C8: the decomposition at a concrete property set with one
retention property and the two replication properties. -/
theorem zbackup_C8_witness :
    ∃ l₁ l₂, format_names
        [("replica", "host/pool", "local"), ("replicate", "daily", "local"),
         ("daily-snapshots", "7", "local")] = l₁ ++ l₂ ∧
      l₁.Pairwise (fun x y => strLe x y = true) ∧
      l₂.Pairwise (fun x y => strLe x y = true) ∧
      (∀ nm ∈ l₁, nm ≠ REPLICA_PROPERTY ∧ nm ≠ REPLICATE_PROPERTY) ∧
      (∀ nm, nm ∈ l₂ ↔ ((nm = REPLICA_PROPERTY ∨ nm = REPLICATE_PROPERTY) ∧
        (plookup (effective_properties
          [("replica", "host/pool", "local"), ("replicate", "daily", "local"),
           ("daily-snapshots", "7", "local")]) nm).isSome = true)) :=
  zbackup_C8 [("replica", "host/pool", "local"), ("replicate", "daily", "local"),
    ("daily-snapshots", "7", "local")]

end ZBackup
